import Mathlib

/-!
Shallow embedding of the snake game's core logic
(`game_objects.py`, `level_manager.py`, `config.py`, and the apple-collision
part of `game_controller.py`), together with theorems settling the claims
about it.  Grid coordinates are integers (pygame `Vector2` values are always
integral here); times are integers (pygame ticks, milliseconds).
-/

namespace SnakeGame

/-- A grid cell / 2-d vector, `pygame.math.Vector2` with integral coordinates. -/
structure Pos where
  x : Int
  y : Int
deriving DecidableEq, Repr

instance : Add Pos := ⟨fun a b => ⟨a.x + b.x, a.y + b.y⟩⟩

def Pos.zero : Pos := ⟨0, 0⟩

/-- Source `AppleState` from `game_objects.py`. -/
inductive AppleState
  | GOOD
  | WARNING
  | POISONOUS
  | EXPIRED
deriving DecidableEq, Repr

/-! ## Snake (`game_objects.py`, class `Snake`) -/

/-- The state of `Snake` relevant to game logic (sprites omitted). -/
structure Snake where
  cell_number : Nat
  body : List Pos
  direction : Pos
  new_block : Bool
deriving DecidableEq, Repr

/-- Source `Snake.move`: no-op when stationary; otherwise drop the tail unless
`new_block` is set, and push `head + direction` at the front.  Reading
`self.body[0]` of an empty body would raise in Python, hence `Option`. -/
def Snake.move (s : Snake) : Option Snake :=
  if s.direction = Pos.zero then
    some s
  else
    match s.body with
    | [] => none
    | h :: _ =>
      let body_segments := if s.new_block then s.body else s.body.dropLast
      some { s with body := (h + s.direction) :: body_segments, new_block := false }

/-- Source `Snake.grow`: set the flag so the next `move` keeps the tail. -/
def Snake.grow (s : Snake) : Snake :=
  { s with new_block := true }

/-- Source `Snake.shrink`: pop the tail if the body has more than one segment,
returning whether shrinking happened. -/
def Snake.shrink (s : Snake) : Snake × Bool :=
  if s.body.length > 1 then
    ({ s with body := s.body.dropLast }, true)
  else
    (s, false)

/-- Source `Snake.change_direction`: refuse the exact opposite direction when the
body has more than one segment. -/
def Snake.change_direction (d : Pos) (s : Snake) : Snake :=
  if s.body.length > 1 then
    if ¬(d + s.direction = Pos.zero) then { s with direction := d } else s
  else
    { s with direction := d }

/-! ## Fruit (`game_objects.py`, class `Fruit`)

The difficulty settings store `apple_total_life` and `apple_warning_time`
as Python floats that are either plain integers or `float('inf')`; we model
them as `Option Int` with `none` standing for `inf`.  The subtraction
`time_to_live - time_to_warn` in `update_state` is Python float arithmetic,
where `inf - inf` is `nan`, so the comparison value gets its own type. -/

/-- The possible values of `time_to_live - time_to_warn` under Python float
arithmetic when each operand is a finite integer or `+inf`. -/
inductive XFloat
  | nan
  | posInf
  | negInf
  | fin (n : Int)
deriving DecidableEq, Repr

/-- Python `e >= v` for a finite integer `e` and an `XFloat` `v`
(any comparison with `nan` is `False`). -/
def XFloat.geThis (e : Int) : XFloat → Bool
  | .nan => false
  | .posInf => false
  | .negInf => true
  | .fin n => decide (e ≥ n)

/-- Python float subtraction on values that are finite or `+inf`
(`none` = `+inf`): `inf - inf = nan`, `inf - n = inf`, `n - inf = -inf`. -/
def xsub : Option Int → Option Int → XFloat
  | none, none => .nan
  | none, some _ => .posInf
  | some _, none => .negInf
  | some a, some b => .fin (a - b)

/-- Embed a finite-or-`inf` value into `XFloat`. -/
def xval : Option Int → XFloat
  | none => .posInf
  | some a => .fin a

/-- The state of `Fruit` relevant to game logic (sprites omitted). -/
structure Fruit where
  cell_number : Nat
  pos : Pos
  state : AppleState
  spawn_time : Int
  time_to_live : Option Int
  time_to_warn : Option Int
  expiry_enabled : Bool
  is_active : Bool
  poison_time_to_live : Int
deriving DecidableEq, Repr

/-- Source `Fruit.set_state`: update the state; becoming GOOD or POISONOUS also
resets `spawn_time` to `pygame.time.get_ticks()`, passed in as `ticks`. -/
def Fruit.set_state (ticks : Int) (f : Fruit) (new_state : AppleState) : Fruit :=
  let f' := { f with state := new_state }
  if new_state = AppleState.GOOD ∨ new_state = AppleState.POISONOUS then
    { f' with spawn_time := ticks }
  else
    f'

/-- Source `Fruit.update_state(current_time)`.  `ticks` is the ambient
`pygame.time.get_ticks()` used inside `set_state`. -/
def Fruit.update_state (ticks current_time : Int) (f : Fruit) : Fruit :=
  if ¬(f.is_active = true) then
    f
  else
    let elapsed_time := current_time - f.spawn_time
    if f.state = AppleState.POISONOUS ∧ elapsed_time ≥ f.poison_time_to_live then
      f.set_state ticks AppleState.EXPIRED
    else if ¬(f.expiry_enabled = true) then
      f
    else if f.state = AppleState.GOOD ∧
        XFloat.geThis elapsed_time (xsub f.time_to_live f.time_to_warn) = true then
      f.set_state ticks AppleState.WARNING
    else if f.state = AppleState.WARNING ∧
        XFloat.geThis elapsed_time (xval f.time_to_live) = true then
      { f.set_state ticks AppleState.POISONOUS with spawn_time := current_time }
    else
      f

/-- All grid cells in the row-major order of `randomize`'s nested loops
(`for r in range(n): for c in range(n)` building `Vector2(c, r)`). -/
def gridCells (n : Nat) : List Pos :=
  (List.range n).flatMap (fun (r : Nat) =>
    (List.range n).map (fun (c : Nat) => ⟨(c : Int), (r : Int)⟩))

/-- Source `Fruit.randomize(snake_body, wall_positions, other_apple_pos)`.
`random.choice` is modelled by an arbitrary index `pick` taken modulo the
number of candidates, and the `random.random() < POISON_APPLE_CHANCE` roll
by the Boolean `poison_roll`. -/
def Fruit.randomize (pick : Nat) (poison_roll : Bool) (ticks : Int) (f : Fruit)
    (snake_body wall_positions other_apple_pos : List Pos) : Fruit :=
  let occupied_positions := snake_body ++ wall_positions ++ other_apple_pos
  let possible_positions :=
    (gridCells f.cell_number).filter (fun p => decide (p ∉ occupied_positions))
  if h : possible_positions = [] then
    { f with is_active := false, pos := ⟨-1, -1⟩ }
  else
    let p := possible_positions.get
      ⟨pick % possible_positions.length,
       Nat.mod_lt _ (List.length_pos.mpr h)⟩
    let f' := { f with pos := p, is_active := true }
    if poison_roll = true then
      f'.set_state ticks AppleState.POISONOUS
    else
      f'.set_state ticks AppleState.GOOD

/-! ## Wall (`game_objects.py`, class `Wall`) -/

/-- The 7×7 box of cells within Chebyshev distance 3 of the snake head,
as added to `safe_zones_tuples` (`dx, dy in range(-3, 4)`). -/
def headBox (head : Pos) : List Pos :=
  (List.range 7).flatMap (fun (dx : Nat) =>
    (List.range 7).map (fun (dy : Nat) =>
      ⟨head.x + (dx : Int) - 3, head.y + (dy : Int) - 3⟩))

/-- Source `safe_zones_tuples`: the fruit cells, and — when the snake body is
non-empty — the head margin box and every snake segment. -/
def safe_zones (snake_body fruit_positions : List Pos) : List Pos :=
  fruit_positions ++
    (match snake_body with
     | [] => []
     | head :: _ => headBox head ++ snake_body)

/-- The spawn-corridor ban from `Wall.generate`: columns `c < 5` are skipped
exactly when the snake body is non-empty and some segment has `x < 5`
(`forbidden_cols_initial_snake = 5`). -/
def wallColBan (snake_body : List Pos) : Bool :=
  (!snake_body.isEmpty) && snake_body.any (fun s => decide (s.x < 5))

/-- Source `possible_positions` as built by `Wall.generate`'s nested loops before
shuffling. -/
def wallPossiblePositions (cell_number : Nat) (snake_body fruit_positions : List Pos) :
    List Pos :=
  (List.range cell_number).flatMap (fun (r : Nat) =>
    (List.range cell_number).filterMap (fun (c : Nat) =>
      if (c : Int) < 5 ∧ wallColBan snake_body = true then
        none
      else if (⟨(c : Int), (r : Int)⟩ : Pos) ∈ safe_zones snake_body fruit_positions then
        none
      else
        some ⟨(c : Int), (r : Int)⟩))

/-- The state of `Wall` relevant to game logic (tile images omitted). -/
structure Wall where
  cell_number : Nat
  positions : List Pos
deriving DecidableEq, Repr

/-- Source `Wall.generate(num_obstacles, snake_body, fruit_positions)`.
`random.shuffle` is modelled by the `shuffle` parameter (theorems assume it
permutes its input); the loop pops `min(num_obstacles, len(possible))`
candidates from the end of the shuffled list. -/
def Wall.generate (shuffle : List Pos → List Pos) (num_obstacles : Nat)
    (snake_body fruit_positions : List Pos) (w : Wall) : Wall :=
  if num_obstacles = 0 then
    { w with positions := [] }
  else
    let possible := shuffle (wallPossiblePositions w.cell_number snake_body fruit_positions)
    { w with positions := possible.reverse.take (min num_obstacles possible.length) }

/-! ## Level manager (`level_manager.py`, `config.py`) -/

inductive Difficulty
  | Easy
  | Moderate
  | Hard
deriving DecidableEq, Repr

/-- One level entry of `LEVEL_CONFIG`. -/
structure LevelCfg where
  level : Int
  target_score : Int
  num_apples : Int
  num_obstacles : Int
  apple_spawn_delay : Int
deriving DecidableEq, Repr

/-- Source `LEVEL_CONFIG` from `config.py` (fields in the order
level, target_score, num_apples, num_obstacles, apple_spawn_delay). -/
def LEVEL_CONFIG : Difficulty → List LevelCfg
  | .Easy =>
    [⟨1, 5, 1, 0, 500⟩, ⟨2, 10, 1, 3, 500⟩, ⟨3, 15, 2, 5, 700⟩,
     ⟨4, 20, 2, 7, 700⟩, ⟨5, 25, 3, 10, 1000⟩]
  | .Moderate =>
    [⟨1, 10, 1, 0, 500⟩, ⟨2, 20, 1, 3, 500⟩, ⟨3, 30, 2, 5, 700⟩,
     ⟨4, 40, 2, 7, 700⟩, ⟨5, 50, 3, 10, 1000⟩]
  | .Hard =>
    [⟨1, 15, 1, 0, 500⟩, ⟨2, 25, 1, 3, 500⟩, ⟨3, 40, 2, 5, 600⟩,
     ⟨4, 55, 2, 7, 600⟩, ⟨5, 70, 3, 10, 800⟩]

/-- The apple-related entries of `DIFFICULTY_SETTINGS` from `config.py`
(`none` = `float('inf')`). -/
structure AppleSettings where
  apple_expiry_enabled : Bool
  apple_total_life : Option Int
  apple_warning_time : Option Int
  poison_apple_life : Int
  cell_number : Nat
deriving DecidableEq, Repr

def DIFFICULTY_SETTINGS : Difficulty → AppleSettings
  | .Easy => ⟨false, none, none, 5000, 20⟩
  | .Moderate => ⟨true, some 15000, some 5000, 3500, 25⟩
  | .Hard => ⟨true, some 10000, some 3000, 2000, 30⟩

/-- Source `Fruit.__init__(cell_size, cell_number, difficulty_settings)` without the
sprite loading: off-screen position, GOOD, inactive. -/
def Fruit.init (cell_number : Nat) (s : AppleSettings) : Fruit :=
  { cell_number := cell_number
    pos := ⟨-1, -1⟩
    state := AppleState.GOOD
    spawn_time := 0
    time_to_live := s.apple_total_life
    time_to_warn := s.apple_warning_time
    expiry_enabled := s.apple_expiry_enabled
    is_active := false
    poison_time_to_live := s.poison_apple_life }

/-- The state of `LevelManager` (over the static `LEVEL_CONFIG`).  The index
is an `Int` to cover out-of-range values the defensive code guards against. -/
structure LevelManager where
  difficulty : Difficulty
  current_level_index : Int
deriving DecidableEq, Repr

/-- Source `LevelManager.get_current_level_config`: the indexed entry when the index
is in range, otherwise `difficulty_levels[-1] if difficulty_levels else {}`
(the `{}` fallback is `none`). -/
def LevelManager.get_current_level_config (m : LevelManager) : Option LevelCfg :=
  let difficulty_levels := LEVEL_CONFIG m.difficulty
  if 0 ≤ m.current_level_index ∧ m.current_level_index < (difficulty_levels.length : Int) then
    difficulty_levels[m.current_level_index.toNat]?
  else
    difficulty_levels.getLast?

/-- Source `get_level_number`: `.get("level", 1)` on the config dict. -/
def LevelManager.get_level_number (m : LevelManager) : Int :=
  (m.get_current_level_config.map LevelCfg.level).getD 1

/-- Source `get_target_score`: `.get("target_score", 10)`. -/
def LevelManager.get_target_score (m : LevelManager) : Int :=
  (m.get_current_level_config.map LevelCfg.target_score).getD 10

/-- Source `get_num_apples`: `.get("num_apples", 1)`. -/
def LevelManager.get_num_apples (m : LevelManager) : Int :=
  (m.get_current_level_config.map LevelCfg.num_apples).getD 1

/-- Source `get_num_obstacles`: `.get("num_obstacles", 0)`. -/
def LevelManager.get_num_obstacles (m : LevelManager) : Int :=
  (m.get_current_level_config.map LevelCfg.num_obstacles).getD 0

/-- Source `LevelManager.advance_level`: increment when below the last index and
report whether advancement occurred. -/
def LevelManager.advance_level (m : LevelManager) : LevelManager × Bool :=
  let difficulty_levels := LEVEL_CONFIG m.difficulty
  if m.current_level_index < (difficulty_levels.length : Int) - 1 then
    ({ m with current_level_index := m.current_level_index + 1 }, true)
  else
    (m, false)

/-- Source `LevelManager.is_game_complete`. -/
def LevelManager.is_game_complete (m : LevelManager) : Bool :=
  decide (m.current_level_index ≥ ((LEVEL_CONFIG m.difficulty).length : Int) - 1)

/-! ## Apple collision handling (`game_controller.py`, `_update_game_logic`)

The `for apple_idx, apple in enumerate(self.apples)` loop: the first active
apple under the head is eaten (poisonous: `shrink` and
`score = max(0, score - 1)`; otherwise `grow` and `score += 1`) and the loop
breaks.  Only the effect on the snake and the score is modelled; the
despawn/respawn of the eaten apple does not touch either. -/

def applesCollisionStep (head : Pos) : List Fruit → Snake → Int → Snake × Int
  | [], snake, score => (snake, score)
  | a :: rest, snake, score =>
    if a.is_active = true ∧ head = a.pos then
      if a.state = AppleState.POISONOUS then
        ((Snake.shrink snake).1, max 0 (score - 1))
      else
        (Snake.grow snake, score + 1)
    else
      applesCollisionStep head rest snake score

/-! ## Theorems -/

/-- C4: `Snake.move` is a no-op when the direction is the zero vector; with a
nonzero direction and the grow flag set it lengthens the body by exactly 1 and
clears the flag; with the flag clear it keeps the length, drops the tail cell
and pushes `head + direction` at the front. -/
theorem snake_move_spec (s : Snake) (h : s.body ≠ []) :
    (s.direction = Pos.zero → s.move = some s) ∧
    (s.direction ≠ Pos.zero → s.new_block = true →
      ∃ s', s.move = some s' ∧ s'.body.length = s.body.length + 1 ∧
        s'.new_block = false) ∧
    (s.direction ≠ Pos.zero → s.new_block = false →
      ∃ s', s.move = some s' ∧ s'.body.length = s.body.length ∧
        s'.body = (s.body.head h + s.direction) :: s.body.dropLast ∧
        s'.new_block = false) := by
  obtain ⟨n, body, dir, nb⟩ := s
  cases body with
  | nil => exact absurd rfl h
  | cons a t =>
    refine ⟨fun hd => ?_, fun hd hb => ?_, fun hd hb => ?_⟩
    · have hd' : dir = Pos.zero := hd
      simp [Snake.move, hd']
    · have hd' : dir ≠ Pos.zero := hd
      have hb' : nb = true := hb
      subst hb'
      exact ⟨⟨n, (a + dir) :: a :: t, dir, false⟩,
        by simp [Snake.move, hd'], by simp, rfl⟩
    · have hd' : dir ≠ Pos.zero := hd
      have hb' : nb = false := hb
      subst hb'
      exact ⟨⟨n, (a + dir) :: (a :: t).dropLast, dir, false⟩,
        by simp [Snake.move, hd'], by simp [List.length_dropLast], rfl, rfl⟩

/-- Witness for C4 at a concrete length-3 snake. -/
theorem snake_move_spec_witness :
    (Snake.move ⟨20, [⟨5, 10⟩, ⟨4, 10⟩, ⟨3, 10⟩], ⟨0, 0⟩, false⟩ =
      some ⟨20, [⟨5, 10⟩, ⟨4, 10⟩, ⟨3, 10⟩], ⟨0, 0⟩, false⟩) ∧
    (∃ s', Snake.move ⟨20, [⟨5, 10⟩, ⟨4, 10⟩, ⟨3, 10⟩], ⟨1, 0⟩, true⟩ = some s' ∧
      s'.body.length = 3 + 1 ∧ s'.new_block = false) ∧
    (∃ s', Snake.move ⟨20, [⟨5, 10⟩, ⟨4, 10⟩, ⟨3, 10⟩], ⟨1, 0⟩, false⟩ = some s' ∧
      s'.body.length = 3 ∧
      s'.body = ⟨6, 10⟩ :: [⟨5, 10⟩, ⟨4, 10⟩] ∧ s'.new_block = false) :=
  ⟨(snake_move_spec ⟨20, [⟨5, 10⟩, ⟨4, 10⟩, ⟨3, 10⟩], ⟨0, 0⟩, false⟩
      (by decide)).1 rfl,
   (snake_move_spec ⟨20, [⟨5, 10⟩, ⟨4, 10⟩, ⟨3, 10⟩], ⟨1, 0⟩, true⟩
      (by decide)).2.1 (by decide) rfl,
   (snake_move_spec ⟨20, [⟨5, 10⟩, ⟨4, 10⟩, ⟨3, 10⟩], ⟨1, 0⟩, false⟩
      (by decide)).2.2 (by decide) rfl⟩

/-- C5: `change_direction` with the exact opposite of the current direction is
rejected on a snake longer than one segment; any other direction is accepted,
and on a single-segment snake every direction (a reversal included) is
accepted. -/
theorem change_direction_spec (s : Snake) (d : Pos) :
    (s.body.length > 1 → d + s.direction = Pos.zero →
      (Snake.change_direction d s).direction = s.direction) ∧
    (s.body.length > 1 → d + s.direction ≠ Pos.zero →
      (Snake.change_direction d s).direction = d) ∧
    (s.body.length = 1 → (Snake.change_direction d s).direction = d) := by
  refine ⟨fun hl hop => ?_, fun hl hop => ?_, fun hl => ?_⟩
  · simp [Snake.change_direction, hl, hop]
  · simp [Snake.change_direction, hl, hop]
  · simp [Snake.change_direction, hl]

/-- Witness for C5: reversal rejected at length 3, other turns accepted,
reversal accepted at length 1. -/
theorem change_direction_spec_witness :
    (Snake.change_direction ⟨-1, 0⟩
        ⟨20, [⟨5, 10⟩, ⟨4, 10⟩, ⟨3, 10⟩], ⟨1, 0⟩, false⟩).direction = ⟨1, 0⟩ ∧
    (Snake.change_direction ⟨0, 1⟩
        ⟨20, [⟨5, 10⟩, ⟨4, 10⟩, ⟨3, 10⟩], ⟨1, 0⟩, false⟩).direction = ⟨0, 1⟩ ∧
    (Snake.change_direction ⟨-1, 0⟩
        ⟨20, [⟨5, 10⟩], ⟨1, 0⟩, false⟩).direction = ⟨-1, 0⟩ :=
  ⟨(change_direction_spec ⟨20, [⟨5, 10⟩, ⟨4, 10⟩, ⟨3, 10⟩], ⟨1, 0⟩, false⟩
      ⟨-1, 0⟩).1 (by decide) (by decide),
   (change_direction_spec ⟨20, [⟨5, 10⟩, ⟨4, 10⟩, ⟨3, 10⟩], ⟨1, 0⟩, false⟩
      ⟨0, 1⟩).2.1 (by decide) (by decide),
   (change_direction_spec ⟨20, [⟨5, 10⟩], ⟨1, 0⟩, false⟩ ⟨-1, 0⟩).2.2 rfl⟩

/-- C7: with the level index in its operating range `[0, number of levels)`,
`advance_level` increments the index and returns `true` below the last index,
returns `false` and changes nothing at the last index, and `is_game_complete`
holds exactly at the last index. -/
theorem advance_level_spec (m : LevelManager)
    (_h0 : 0 ≤ m.current_level_index)
    (h1 : m.current_level_index < ((LEVEL_CONFIG m.difficulty).length : Int)) :
    (m.current_level_index < ((LEVEL_CONFIG m.difficulty).length : Int) - 1 →
      m.advance_level.2 = true ∧
      m.advance_level.1.current_level_index = m.current_level_index + 1) ∧
    (m.current_level_index = ((LEVEL_CONFIG m.difficulty).length : Int) - 1 →
      m.advance_level.2 = false ∧ m.advance_level.1 = m) ∧
    (m.is_game_complete = true ↔
      m.current_level_index = ((LEVEL_CONFIG m.difficulty).length : Int) - 1) := by
  refine ⟨fun hlt => ?_, fun heq => ?_, ?_⟩
  · simp [LevelManager.advance_level, hlt]
  · constructor <;> simp [LevelManager.advance_level, heq]
  · rw [LevelManager.is_game_complete]
    constructor
    · intro hb
      have := of_decide_eq_true hb
      omega
    · intro hb
      exact decide_eq_true (by omega)

/-- Witness for C7 on Moderate at index 2 (advances) and index 4 (the last
index: refuses, game complete) and index 3 (not complete). -/
theorem advance_level_spec_witness :
    ((LevelManager.advance_level ⟨Difficulty.Moderate, 2⟩).2 = true ∧
      (LevelManager.advance_level ⟨Difficulty.Moderate, 2⟩).1.current_level_index
        = 2 + 1) ∧
    ((LevelManager.advance_level ⟨Difficulty.Moderate, 4⟩).2 = false ∧
      (LevelManager.advance_level ⟨Difficulty.Moderate, 4⟩).1
        = ⟨Difficulty.Moderate, 4⟩) ∧
    (LevelManager.is_game_complete ⟨Difficulty.Moderate, 4⟩ = true) ∧
    ¬(LevelManager.is_game_complete ⟨Difficulty.Moderate, 3⟩ = true) :=
  ⟨(advance_level_spec ⟨Difficulty.Moderate, 2⟩ (by decide) (by decide)).1
      (by decide),
   (advance_level_spec ⟨Difficulty.Moderate, 4⟩ (by decide) (by decide)).2.1
      (by decide),
   (advance_level_spec ⟨Difficulty.Moderate, 4⟩ (by decide) (by decide)).2.2.mpr
      (by decide),
   by
    intro hb
    exact absurd
      ((advance_level_spec ⟨Difficulty.Moderate, 3⟩ (by decide) (by decide)).2.2.mp hb)
      (by decide)⟩

/-- If the current config resolves to `some c`, each getter returns the
corresponding field of `c`. -/
theorem getters_of_config (m : LevelManager) (c : LevelCfg)
    (h : m.get_current_level_config = some c) :
    m.get_level_number = c.level ∧ m.get_target_score = c.target_score ∧
    m.get_num_apples = c.num_apples ∧ m.get_num_obstacles = c.num_obstacles := by
  simp [LevelManager.get_level_number, LevelManager.get_target_score,
    LevelManager.get_num_apples, LevelManager.get_num_obstacles, h]

/-- C8: an out-of-range level index is clamped — `get_current_level_config`
returns the last valid level's configuration, and every getter returns that
configuration's field. -/
theorem level_config_clamped (m : LevelManager)
    (h : m.current_level_index < 0 ∨
      ((LEVEL_CONFIG m.difficulty).length : Int) ≤ m.current_level_index) :
    ∃ c, (LEVEL_CONFIG m.difficulty).getLast? = some c ∧
      m.get_current_level_config = some c ∧
      m.get_level_number = c.level ∧
      m.get_target_score = c.target_score ∧
      m.get_num_apples = c.num_apples ∧
      m.get_num_obstacles = c.num_obstacles := by
  have hcond : ¬(0 ≤ m.current_level_index ∧
      m.current_level_index < ((LEVEL_CONFIG m.difficulty).length : Int)) := by
    omega
  have hcfg : m.get_current_level_config = (LEVEL_CONFIG m.difficulty).getLast? := by
    rw [LevelManager.get_current_level_config, if_neg hcond]
  obtain ⟨d, i⟩ := m
  cases d with
  | Easy =>
    refine ⟨⟨5, 25, 3, 10, 1000⟩, rfl, ?_, ?_⟩
    · rw [hcfg]; rfl
    · exact getters_of_config _ _ (by rw [hcfg]; rfl)
  | Moderate =>
    refine ⟨⟨5, 50, 3, 10, 1000⟩, rfl, ?_, ?_⟩
    · rw [hcfg]; rfl
    · exact getters_of_config _ _ (by rw [hcfg]; rfl)
  | Hard =>
    refine ⟨⟨5, 70, 3, 10, 800⟩, rfl, ?_, ?_⟩
    · rw [hcfg]; rfl
    · exact getters_of_config _ _ (by rw [hcfg]; rfl)

/-- Witness for C8 at index 7 on Moderate (past the last index, 4). -/
theorem level_config_clamped_witness :
    ∃ c, (LEVEL_CONFIG (LevelManager.mk Difficulty.Moderate 7).difficulty).getLast?
        = some c ∧
      (LevelManager.mk Difficulty.Moderate 7).get_current_level_config = some c ∧
      (LevelManager.mk Difficulty.Moderate 7).get_level_number = c.level ∧
      (LevelManager.mk Difficulty.Moderate 7).get_target_score = c.target_score ∧
      (LevelManager.mk Difficulty.Moderate 7).get_num_apples = c.num_apples ∧
      (LevelManager.mk Difficulty.Moderate 7).get_num_obstacles = c.num_obstacles :=
  level_config_clamped ⟨Difficulty.Moderate, 7⟩ (Or.inr (by decide))

/-- C1: with expiry enabled, `total_life = 15000` and `warning_time = 5000`,
`update_state` leaves a GOOD apple GOOD at elapsed 9999, turns it WARNING
from elapsed 10000 on, and turns a WARNING apple POISONOUS at
elapsed ≥ 15000 with `spawn_time` reset to `current_time`. -/
theorem apple_lifecycle_thresholds (f : Fruit) (ticks current_time : Int)
    (hact : f.is_active = true) (hen : f.expiry_enabled = true)
    (httl : f.time_to_live = some 15000) (httw : f.time_to_warn = some 5000) :
    (f.state = AppleState.GOOD → current_time - f.spawn_time = 9999 →
      (f.update_state ticks current_time).state = AppleState.GOOD) ∧
    (f.state = AppleState.GOOD → current_time - f.spawn_time ≥ 10000 →
      (f.update_state ticks current_time).state = AppleState.WARNING) ∧
    (f.state = AppleState.WARNING → current_time - f.spawn_time ≥ 15000 →
      (f.update_state ticks current_time).state = AppleState.POISONOUS ∧
      (f.update_state ticks current_time).spawn_time = current_time) := by
  refine ⟨fun hst he => ?_, fun hst he => ?_, fun hst he => ?_⟩
  · have hlt : XFloat.geThis (current_time - f.spawn_time)
        (xsub f.time_to_live f.time_to_warn) = false := by
      rw [httl, httw]
      exact decide_eq_false (by omega)
    simp [Fruit.update_state, hact, hen, hst, hlt]
  · have hge : XFloat.geThis (current_time - f.spawn_time)
        (xsub f.time_to_live f.time_to_warn) = true := by
      rw [httl, httw]
      exact decide_eq_true (by omega)
    simp [Fruit.update_state, Fruit.set_state, hact, hen, hst, hge]
  · have hge : XFloat.geThis (current_time - f.spawn_time)
        (xval f.time_to_live) = true := by
      rw [httl]
      exact decide_eq_true (by omega)
    constructor <;>
      simp [Fruit.update_state, Fruit.set_state, hact, hen, hst, hge]

/-- Witness for C1 on a Moderate-settings apple spawned at time 0:
GOOD at 9999, WARNING at 10000, and POISONOUS with a restarted timer
at 15000 for a WARNING apple. -/
theorem apple_lifecycle_thresholds_witness :
    ((Fruit.update_state 77 9999
        { Fruit.init 25 (DIFFICULTY_SETTINGS Difficulty.Moderate) with
          is_active := true }).state = AppleState.GOOD) ∧
    ((Fruit.update_state 77 10000
        { Fruit.init 25 (DIFFICULTY_SETTINGS Difficulty.Moderate) with
          is_active := true }).state = AppleState.WARNING) ∧
    ((Fruit.update_state 77 15000
        { Fruit.init 25 (DIFFICULTY_SETTINGS Difficulty.Moderate) with
          is_active := true, state := AppleState.WARNING }).state
        = AppleState.POISONOUS ∧
      (Fruit.update_state 77 15000
        { Fruit.init 25 (DIFFICULTY_SETTINGS Difficulty.Moderate) with
          is_active := true, state := AppleState.WARNING }).spawn_time = 15000) :=
  ⟨(apple_lifecycle_thresholds
      { Fruit.init 25 (DIFFICULTY_SETTINGS Difficulty.Moderate) with
        is_active := true } 77 9999 rfl rfl rfl rfl).1 rfl (by decide),
   (apple_lifecycle_thresholds
      { Fruit.init 25 (DIFFICULTY_SETTINGS Difficulty.Moderate) with
        is_active := true } 77 10000 rfl rfl rfl rfl).2.1 rfl (by decide),
   (apple_lifecycle_thresholds
      { Fruit.init 25 (DIFFICULTY_SETTINGS Difficulty.Moderate) with
        is_active := true, state := AppleState.WARNING } 77 15000
      rfl rfl rfl rfl).2.2 rfl (by decide)⟩

/-- C9: the POISONOUS → EXPIRED transition fires as soon as the elapsed time
reaches `poison_apple_life`, independently of the expiry flag, while with
expiry disabled a GOOD or WARNING apple is left untouched (no aging
transition), and a POISONOUS apple below the threshold is also untouched. -/
theorem poison_expiry_independent (f : Fruit) (ticks current_time : Int)
    (hact : f.is_active = true) :
    (f.state = AppleState.POISONOUS →
      current_time - f.spawn_time ≥ f.poison_time_to_live →
      (f.update_state ticks current_time).state = AppleState.EXPIRED) ∧
    (f.expiry_enabled = false →
      f.state = AppleState.GOOD ∨ f.state = AppleState.WARNING →
      f.update_state ticks current_time = f) ∧
    (f.expiry_enabled = false → f.state = AppleState.POISONOUS →
      current_time - f.spawn_time < f.poison_time_to_live →
      f.update_state ticks current_time = f) := by
  refine ⟨fun hst he => ?_, fun hen hst => ?_, fun hen hst he => ?_⟩
  · simp [Fruit.update_state, Fruit.set_state, hact, hst, he]
  · rcases hst with hst | hst <;> simp [Fruit.update_state, hact, hen, hst]
  · simp [Fruit.update_state, hact, hen, hst, not_le.mpr he]

/-- Witness for C9 on Easy settings (expiry disabled, `poison_apple_life =
5000`): a POISONOUS apple expires at elapsed 5000, a GOOD apple and a
just-poisoned apple at 4999 are unchanged. -/
theorem poison_expiry_independent_witness :
    ((Fruit.update_state 77 5000
        { Fruit.init 20 (DIFFICULTY_SETTINGS Difficulty.Easy) with
          is_active := true, state := AppleState.POISONOUS }).state
        = AppleState.EXPIRED) ∧
    (Fruit.update_state 77 123456
        { Fruit.init 20 (DIFFICULTY_SETTINGS Difficulty.Easy) with
          is_active := true }
      = { Fruit.init 20 (DIFFICULTY_SETTINGS Difficulty.Easy) with
          is_active := true }) ∧
    (Fruit.update_state 77 4999
        { Fruit.init 20 (DIFFICULTY_SETTINGS Difficulty.Easy) with
          is_active := true, state := AppleState.POISONOUS }
      = { Fruit.init 20 (DIFFICULTY_SETTINGS Difficulty.Easy) with
          is_active := true, state := AppleState.POISONOUS }) :=
  ⟨(poison_expiry_independent
      { Fruit.init 20 (DIFFICULTY_SETTINGS Difficulty.Easy) with
        is_active := true, state := AppleState.POISONOUS } 77 5000 rfl).1
      rfl (by decide),
   (poison_expiry_independent
      { Fruit.init 20 (DIFFICULTY_SETTINGS Difficulty.Easy) with
        is_active := true } 77 123456 rfl).2.1 rfl (Or.inl rfl),
   (poison_expiry_independent
      { Fruit.init 20 (DIFFICULTY_SETTINGS Difficulty.Easy) with
        is_active := true, state := AppleState.POISONOUS } 77 4999 rfl).2.2
      rfl rfl (by decide)⟩

/-- Apples that do not lie under the head (or are inactive) are skipped by the
collision loop. -/
theorem applesCollisionStep_skip (head : Pos) (pre rest : List Fruit)
    (snake : Snake) (score : Int)
    (hpre : ∀ b ∈ pre, ¬(b.is_active = true ∧ head = b.pos)) :
    applesCollisionStep head (pre ++ rest) snake score
      = applesCollisionStep head rest snake score := by
  revert hpre
  induction pre with
  | nil => intro _; rfl
  | cons b bs ih =>
    intro hpre
    simp only [List.cons_append, applesCollisionStep]
    rw [if_neg (hpre b (by simp))]
    exact ih (fun x hx => hpre x (by simp [hx]))

/-- C6: when the head lands on the first active apple and it is POISONOUS, the
tick sets the score to `max 0 (score - 1)` and shrinks the snake by one
segment, unless the body has a single segment, in which case the body is
unchanged and `shrink` reports failure. -/
theorem poisonous_apple_effect (head : Pos) (pre rest : List Fruit) (a : Fruit)
    (snake : Snake) (score : Int)
    (hpre : ∀ b ∈ pre, ¬(b.is_active = true ∧ head = b.pos))
    (ha : a.is_active = true) (hpos : head = a.pos)
    (hst : a.state = AppleState.POISONOUS) :
    (applesCollisionStep head (pre ++ a :: rest) snake score).2
      = max 0 (score - 1) ∧
    (snake.body.length > 1 →
      (applesCollisionStep head (pre ++ a :: rest) snake score).1.body.length
        = snake.body.length - 1) ∧
    (snake.body.length = 1 →
      (applesCollisionStep head (pre ++ a :: rest) snake score).1.body
          = snake.body ∧
      snake.shrink.2 = false) := by
  have key : applesCollisionStep head (pre ++ a :: rest) snake score
      = (snake.shrink.1, max 0 (score - 1)) := by
    rw [applesCollisionStep_skip head pre (a :: rest) snake score hpre]
    simp [applesCollisionStep, ha, hpos, hst]
  refine ⟨by rw [key], fun hl => ?_, fun hl => ?_⟩
  · rw [key]
    simp [Snake.shrink, hl, List.length_dropLast]
  · rw [key]
    have hl' : ¬ snake.body.length > 1 := by omega
    simp [Snake.shrink, hl']

/-- Witness for C6: a poisonous apple under the head after one skipped
inactive apple, at score 0 (floored) and at a length-3 and a length-1
snake. -/
theorem poisonous_apple_effect_witness :
    ((applesCollisionStep ⟨3, 3⟩
        [Fruit.init 20 (DIFFICULTY_SETTINGS Difficulty.Easy),
         { Fruit.init 20 (DIFFICULTY_SETTINGS Difficulty.Easy) with
           is_active := true, pos := ⟨3, 3⟩, state := AppleState.POISONOUS }]
        ⟨20, [⟨3, 3⟩, ⟨2, 3⟩, ⟨1, 3⟩], ⟨1, 0⟩, false⟩ 0).2 = max 0 (0 - 1)) ∧
    ((applesCollisionStep ⟨3, 3⟩
        [Fruit.init 20 (DIFFICULTY_SETTINGS Difficulty.Easy),
         { Fruit.init 20 (DIFFICULTY_SETTINGS Difficulty.Easy) with
           is_active := true, pos := ⟨3, 3⟩, state := AppleState.POISONOUS }]
        ⟨20, [⟨3, 3⟩, ⟨2, 3⟩, ⟨1, 3⟩], ⟨1, 0⟩, false⟩ 0).1.body.length = 3 - 1) ∧
    ((applesCollisionStep ⟨3, 3⟩
        [{ Fruit.init 20 (DIFFICULTY_SETTINGS Difficulty.Easy) with
           is_active := true, pos := ⟨3, 3⟩, state := AppleState.POISONOUS }]
        ⟨20, [⟨3, 3⟩], ⟨1, 0⟩, false⟩ 5).1.body = [⟨3, 3⟩] ∧
      (Snake.shrink ⟨20, [⟨3, 3⟩], ⟨1, 0⟩, false⟩).2 = false) :=
  ⟨(poisonous_apple_effect ⟨3, 3⟩
      [Fruit.init 20 (DIFFICULTY_SETTINGS Difficulty.Easy)] []
      { Fruit.init 20 (DIFFICULTY_SETTINGS Difficulty.Easy) with
        is_active := true, pos := ⟨3, 3⟩, state := AppleState.POISONOUS }
      ⟨20, [⟨3, 3⟩, ⟨2, 3⟩, ⟨1, 3⟩], ⟨1, 0⟩, false⟩ 0
      (by decide) rfl rfl rfl).1,
   (poisonous_apple_effect ⟨3, 3⟩
      [Fruit.init 20 (DIFFICULTY_SETTINGS Difficulty.Easy)] []
      { Fruit.init 20 (DIFFICULTY_SETTINGS Difficulty.Easy) with
        is_active := true, pos := ⟨3, 3⟩, state := AppleState.POISONOUS }
      ⟨20, [⟨3, 3⟩, ⟨2, 3⟩, ⟨1, 3⟩], ⟨1, 0⟩, false⟩ 0
      (by decide) rfl rfl rfl).2.1 (by decide),
   (poisonous_apple_effect ⟨3, 3⟩ []
      []
      { Fruit.init 20 (DIFFICULTY_SETTINGS Difficulty.Easy) with
        is_active := true, pos := ⟨3, 3⟩, state := AppleState.POISONOUS }
      ⟨20, [⟨3, 3⟩], ⟨1, 0⟩, false⟩ 5
      (by decide) rfl rfl rfl).2.2 rfl⟩

/-- C2: `randomize` places the apple on a free grid cell and activates it
whenever some grid cell is outside the occupied union, and deactivates the
apple (position off-grid) when every grid cell is occupied. -/
theorem randomize_spec (f : Fruit) (pick : Nat) (poison_roll : Bool) (ticks : Int)
    (snake_body wall_positions other_apple_pos : List Pos) :
    ((∃ p ∈ gridCells f.cell_number,
        p ∉ snake_body ++ wall_positions ++ other_apple_pos) →
      (f.randomize pick poison_roll ticks snake_body wall_positions
          other_apple_pos).pos ∉ snake_body ++ wall_positions ++ other_apple_pos ∧
      (f.randomize pick poison_roll ticks snake_body wall_positions
          other_apple_pos).pos ∈ gridCells f.cell_number ∧
      (f.randomize pick poison_roll ticks snake_body wall_positions
          other_apple_pos).is_active = true) ∧
    ((∀ p ∈ gridCells f.cell_number,
        p ∈ snake_body ++ wall_positions ++ other_apple_pos) →
      (f.randomize pick poison_roll ticks snake_body wall_positions
          other_apple_pos).is_active = false ∧
      (f.randomize pick poison_roll ticks snake_body wall_positions
          other_apple_pos).pos = ⟨-1, -1⟩) := by
  constructor
  · intro hfree
    obtain ⟨p, hpg, hpo⟩ := hfree
    have hmem : p ∈ (gridCells f.cell_number).filter
        (fun q => decide (q ∉ snake_body ++ wall_positions ++ other_apple_pos)) :=
      List.mem_filter.mpr ⟨hpg, decide_eq_true hpo⟩
    have hne : (gridCells f.cell_number).filter
        (fun q => decide (q ∉ snake_body ++ wall_positions ++ other_apple_pos))
        ≠ [] := List.ne_nil_of_mem hmem
    have hq := List.get_mem ((gridCells f.cell_number).filter
        (fun q => decide (q ∉ snake_body ++ wall_positions ++ other_apple_pos)))
      _ (Nat.mod_lt pick (List.length_pos.mpr hne))
    have hq' := List.mem_filter.mp hq
    rw [Fruit.randomize]
    simp only [dif_neg hne]
    cases poison_roll <;>
      simp only [Fruit.set_state, Bool.false_eq_true, if_neg, if_pos,
        reduceIte] <;>
      exact ⟨of_decide_eq_true hq'.2, hq'.1, rfl⟩
  · intro hall
    have hnil : (gridCells f.cell_number).filter
        (fun q => decide (q ∉ snake_body ++ wall_positions ++ other_apple_pos))
        = [] := by
      rw [List.filter_eq_nil_iff]
      intro p hp
      simp only [decide_eq_true_eq, not_not]
      exact hall p hp
    rw [Fruit.randomize]
    simp only [dif_pos hnil]
    simp

/-- Witness for C2 on a 1×1 grid: a free grid leads to an active apple on a
free cell; a fully occupied grid deactivates the apple. -/
theorem randomize_spec_witness :
    ((Fruit.randomize 0 false 9 (Fruit.init 1 (DIFFICULTY_SETTINGS Difficulty.Easy))
        [] [] []).pos ∉ ([] : List Pos) ++ [] ++ [] ∧
      (Fruit.randomize 0 false 9 (Fruit.init 1 (DIFFICULTY_SETTINGS Difficulty.Easy))
        [] [] []).pos ∈ gridCells (Fruit.init 1 (DIFFICULTY_SETTINGS Difficulty.Easy)).cell_number ∧
      (Fruit.randomize 0 false 9 (Fruit.init 1 (DIFFICULTY_SETTINGS Difficulty.Easy))
        [] [] []).is_active = true) ∧
    ((Fruit.randomize 0 false 9 (Fruit.init 1 (DIFFICULTY_SETTINGS Difficulty.Easy))
        [⟨0, 0⟩] [] []).is_active = false ∧
      (Fruit.randomize 0 false 9 (Fruit.init 1 (DIFFICULTY_SETTINGS Difficulty.Easy))
        [⟨0, 0⟩] [] []).pos = ⟨-1, -1⟩) :=
  ⟨(randomize_spec (Fruit.init 1 (DIFFICULTY_SETTINGS Difficulty.Easy))
      0 false 9 [] [] []).1 ⟨⟨0, 0⟩, by decide, by decide⟩,
   (randomize_spec (Fruit.init 1 (DIFFICULTY_SETTINGS Difficulty.Easy))
      0 false 9 [⟨0, 0⟩] [] []).2 (by decide)⟩

/-- Characterization of the candidate list built by `Wall.generate`. -/
theorem mem_wallPossiblePositions_iff (n : Nat) (snake fruit : List Pos)
    (p : Pos) :
    p ∈ wallPossiblePositions n snake fruit ↔
      (∃ c r : Nat, c < n ∧ r < n ∧ p = ⟨(c : Int), (r : Int)⟩) ∧
      ¬(p.x < 5 ∧ wallColBan snake = true) ∧
      p ∉ safe_zones snake fruit := by
  constructor
  · intro hp
    rw [wallPossiblePositions] at hp
    obtain ⟨r, hr, hp⟩ := List.mem_flatMap.mp hp
    obtain ⟨c, hc, hg⟩ := List.mem_filterMap.mp hp
    rw [List.mem_range] at hr hc
    by_cases h1 : ((c : Int) < 5 ∧ wallColBan snake = true)
    · rw [if_pos h1] at hg
      cases hg
    · rw [if_neg h1] at hg
      by_cases h2 : (⟨(c : Int), (r : Int)⟩ : Pos) ∈ safe_zones snake fruit
      · rw [if_pos h2] at hg
        cases hg
      · rw [if_neg h2] at hg
        have hpe := Option.some.inj hg
        subst hpe
        exact ⟨⟨c, r, hc, hr, rfl⟩, h1, h2⟩
  · rintro ⟨⟨c, r, hc, hr, hp⟩, h1, h2⟩
    subst hp
    rw [wallPossiblePositions]
    refine List.mem_flatMap.mpr ⟨r, List.mem_range.mpr hr, ?_⟩
    refine List.mem_filterMap.mpr ⟨c, List.mem_range.mpr hc, ?_⟩
    rw [if_neg h1, if_neg h2]

/-- Every snake segment is a safe zone (when the snake body is non-empty the
whole body is added to `safe_zones_tuples`). -/
theorem snake_subset_safe_zones (snake fruit : List Pos) :
    ∀ p ∈ snake, p ∈ safe_zones snake fruit := by
  intro p hp
  cases snake with
  | nil => cases hp
  | cons a t =>
    exact List.mem_append.mpr (Or.inr (List.mem_append.mpr (Or.inr hp)))

/-- Every fruit cell is a safe zone. -/
theorem fruit_subset_safe_zones (snake fruit : List Pos) :
    ∀ p ∈ fruit, p ∈ safe_zones snake fruit := by
  intro p hp
  cases snake with
  | nil => exact List.mem_append.mpr (Or.inl hp)
  | cons a t => exact List.mem_append.mpr (Or.inl hp)

/-- Every generated obstacle cell is one of the candidate cells. -/
theorem generate_positions_subset (shuffle : List Pos → List Pos)
    (hsh : ∀ l, (shuffle l).Perm l) (num : Nat) (snake fruit : List Pos)
    (w : Wall) :
    ∀ p ∈ (w.generate shuffle num snake fruit).positions,
      p ∈ wallPossiblePositions w.cell_number snake fruit := by
  intro p hp
  rw [Wall.generate] at hp
  by_cases h0 : num = 0
  · rw [if_pos h0] at hp
    cases hp
  · rw [if_neg h0] at hp
    have h1 := List.take_subset _ _ hp
    have h2 := List.mem_reverse.mp h1
    exact ((hsh _).mem_iff).mp h2

/-- C3: for any shuffle order, no generated obstacle cell lies on the snake
body or on a fruit cell, and when the requested count exceeds the number of
eligible free cells exactly that eligible number is placed. -/
theorem wall_generate_spec (shuffle : List Pos → List Pos)
    (hsh : ∀ l, (shuffle l).Perm l) (num : Nat) (snake fruit : List Pos)
    (w : Wall) :
    (∀ p ∈ (w.generate shuffle num snake fruit).positions,
      p ∉ snake ∧ p ∉ fruit) ∧
    (num > (wallPossiblePositions w.cell_number snake fruit).length →
      (w.generate shuffle num snake fruit).positions.length
        = (wallPossiblePositions w.cell_number snake fruit).length) := by
  constructor
  · intro p hp
    have hposs := generate_positions_subset shuffle hsh num snake fruit w p hp
    have hsafe := ((mem_wallPossiblePositions_iff _ _ _ _).mp hposs).2.2
    exact ⟨fun hs => hsafe (snake_subset_safe_zones snake fruit p hs),
      fun hf => hsafe (fruit_subset_safe_zones snake fruit p hf)⟩
  · intro hgt
    have h0 : num ≠ 0 := by omega
    rw [Wall.generate, if_neg h0]
    simp only [List.length_take, List.length_reverse, (hsh _).length_eq]
    omega

/-- Witness for C3: an 8×8 grid, the identity shuffle, and a count larger
than the number of eligible cells. -/
theorem wall_generate_spec_witness :
    (∀ p ∈ (Wall.generate id 100 [⟨2, 2⟩] [⟨6, 0⟩] ⟨8, []⟩).positions,
      p ∉ [(⟨2, 2⟩ : Pos)] ∧ p ∉ [(⟨6, 0⟩ : Pos)]) ∧
    (Wall.generate id 100 [⟨2, 2⟩] [⟨6, 0⟩] ⟨8, []⟩).positions.length
      = (wallPossiblePositions 8 [⟨2, 2⟩] [⟨6, 0⟩]).length :=
  ⟨(wall_generate_spec id (fun l => List.Perm.refl l) 100 [⟨2, 2⟩] [⟨6, 0⟩]
      ⟨8, []⟩).1,
   (wall_generate_spec id (fun l => List.Perm.refl l) 100 [⟨2, 2⟩] [⟨6, 0⟩]
      ⟨8, []⟩).2 (by decide)⟩

/-- C10: the spawn-corridor column ban is conditional — when the snake body is
non-empty and some segment has `x < 5`, no obstacle lands in columns 0–4;
when the snake is empty or every segment has `x ≥ 5`, in-grid cells of those
columns outside the safe zones remain eligible candidate cells. -/
theorem wall_spawn_corridor_ban (shuffle : List Pos → List Pos)
    (hsh : ∀ l, (shuffle l).Perm l) (num : Nat) (snake fruit : List Pos)
    (w : Wall) :
    (snake ≠ [] → (∃ s ∈ snake, s.x < 5) →
      ∀ p ∈ (w.generate shuffle num snake fruit).positions, ¬(p.x < 5)) ∧
    ((snake = [] ∨ ∀ s ∈ snake, ¬(s.x < 5)) →
      ∀ c r : Nat, c < w.cell_number → r < w.cell_number → (c : Int) < 5 →
        (⟨(c : Int), (r : Int)⟩ : Pos) ∉ safe_zones snake fruit →
        (⟨(c : Int), (r : Int)⟩ : Pos)
          ∈ wallPossiblePositions w.cell_number snake fruit) := by
  constructor
  · intro hne hex p hp
    have hban : wallColBan snake = true := by
      rw [wallColBan, Bool.and_eq_true]
      refine ⟨?_, ?_⟩
      · cases snake with
        | nil => exact absurd rfl hne
        | cons a t => rfl
      · obtain ⟨s, hs, hsx⟩ := hex
        exact List.any_eq_true.mpr ⟨s, hs, decide_eq_true hsx⟩
    have hposs := generate_positions_subset shuffle hsh num snake fruit w p hp
    have h1 := ((mem_wallPossiblePositions_iff _ _ _ _).mp hposs).2.1
    intro hx
    exact h1 ⟨hx, hban⟩
  · intro hno c r hc hr _hx hsafe
    have hban : wallColBan snake = false := by
      rw [wallColBan]
      rcases hno with hno | hno
      · subst hno
        rfl
      · refine Bool.and_eq_false_iff.mpr (Or.inr ?_)
        rw [List.any_eq_false]
        intro s hs hd
        exact hno s hs (of_decide_eq_true hd)
    refine (mem_wallPossiblePositions_iff _ _ _ _).mpr
      ⟨⟨c, r, hc, hr, rfl⟩, ?_, hsafe⟩
    rintro ⟨_, hb⟩
    rw [hban] at hb
    cases hb

/-- Witness for C10: with a snake segment at column 2 the ban is active and
every placed obstacle avoids columns 0–4; with the snake at column 6 the
cell (0, 0) is an eligible candidate. -/
theorem wall_spawn_corridor_ban_witness :
    (∀ p ∈ (Wall.generate id 100 [⟨2, 2⟩] [] ⟨8, []⟩).positions, ¬(p.x < 5)) ∧
    ((⟨0, 0⟩ : Pos) ∈ wallPossiblePositions 8 [⟨6, 6⟩] []) :=
  ⟨(wall_spawn_corridor_ban id (fun l => List.Perm.refl l) 100 [⟨2, 2⟩] []
      ⟨8, []⟩).1 (by decide) ⟨⟨2, 2⟩, by decide, by decide⟩,
   (wall_spawn_corridor_ban id (fun l => List.Perm.refl l) 100 [⟨6, 6⟩] []
      ⟨8, []⟩).2 (Or.inr (by decide)) 0 0 (by decide) (by decide) (by decide)
      (by decide)⟩

end SnakeGame
